import Mathlib

/-!
# Verification of the dungeon action-provider protocol

Shallow embedding of the provider-kind taxonomy (`crates/game/core/src/provider.rs`)
and the Bevy frontend's provider, input, app-setup and event-polling code
(`crates/client/frontend/bevy/src/{provider,input,app,events}.rs`), together with
theorems settling the specified properties.

Machine integers (`u32`) are embedded as `Nat`; every claim proved over all of
`Nat` holds in particular on the `u32` range.
-/

namespace Dungeon

/-! ## Provider kind taxonomy (game_core/src/provider.rs) -/

/-- `InteractiveKind` from `crates/game/core/src/provider.rs`: interactive input
provider types. -/
inductive InteractiveKind
  | CliInput
  | BevyInput
  | NetworkInput
  | Replay
deriving DecidableEq, Repr

/-- `AiKind` from `crates/game/core/src/provider.rs`: AI provider types for
automated decision making. -/
inductive AiKind
  | Wait
  | Utility
deriving DecidableEq, Repr

/-- `ProviderKind` from `crates/game/core/src/provider.rs`: provider kind for
action generation, stored in canonical state. `Custom(u32)` is embedded with a
`Nat` discriminant. -/
inductive ProviderKind
  | Interactive (kind : InteractiveKind)
  | Ai (kind : AiKind)
  | Custom (id : Nat)
deriving DecidableEq, Repr

/-- `ProviderKind::is_interactive`. -/
def ProviderKind.is_interactive : ProviderKind → Bool
  | .Interactive _ => true
  | _ => false

/-- `ProviderKind::is_ai`. -/
def ProviderKind.is_ai : ProviderKind → Bool
  | .Ai _ => true
  | _ => false

/-- `ProviderKind::is_custom`. -/
def ProviderKind.is_custom : ProviderKind → Bool
  | .Custom _ => true
  | _ => false

/-! ## Display formatting (game_core/src/provider.rs, `impl fmt::Display`) -/

/-- `impl fmt::Display for InteractiveKind`. -/
def InteractiveKind.display : InteractiveKind → String
  | .CliInput => "cli"
  | .BevyInput => "bevy"
  | .NetworkInput => "network"
  | .Replay => "replay"

/-- `impl fmt::Display for AiKind`. -/
def AiKind.display : AiKind → String
  | .Wait => "wait"
  | .Utility => "utility"

/-- A decimal digit rendered as its ASCII character, embedding Rust's decimal
`Display` for unsigned integers digit by digit. -/
def digitChar (d : Nat) : Char := Char.ofNat (48 + d)

/-- Decimal rendering of a natural number (Rust's `{}` formatting of `u32`):
most-significant digit first, `0` rendered as `"0"`. -/
def natDecimal (n : Nat) : String :=
  if n = 0 then "0" else String.mk (((Nat.digits 10 n).map digitChar).reverse)

/-- `impl fmt::Display for ProviderKind`: `interactive/{}`, `ai/{}`, `custom/{}`. -/
def ProviderKind.display : ProviderKind → String
  | .Interactive kind => "interactive/" ++ kind.display
  | .Ai kind => "ai/" ++ kind.display
  | .Custom id => "custom/" ++ natDecimal id

/-! ## Serde model (derived `Serialize`/`Deserialize` on the provider enums)

The derived serde implementations use the serde data model: a unit variant
serializes to its name, a newtype variant to its name tagging the payload.
`SerdeValue` embeds exactly that fragment of the data model. -/

/-- Fragment of the serde data model reachable from `ProviderKind`'s derived
`Serialize`: unit-variant names, `u32` payloads, and externally tagged newtype
variants. -/
inductive SerdeValue
  | vstr (s : String)
  | vnat (n : Nat)
  | variant (tag : String) (payload : SerdeValue)
deriving DecidableEq, Repr

/-- Derived `Serialize` for `InteractiveKind` (unit variants serialize to their
names). -/
def InteractiveKind.serialize : InteractiveKind → SerdeValue
  | .CliInput => .vstr "CliInput"
  | .BevyInput => .vstr "BevyInput"
  | .NetworkInput => .vstr "NetworkInput"
  | .Replay => .vstr "Replay"

/-- Derived `Deserialize` for `InteractiveKind`. -/
def InteractiveKind.deserialize : SerdeValue → Option InteractiveKind
  | .vstr s =>
    if s = "CliInput" then some .CliInput
    else if s = "BevyInput" then some .BevyInput
    else if s = "NetworkInput" then some .NetworkInput
    else if s = "Replay" then some .Replay
    else none
  | _ => none

/-- Derived `Serialize` for `AiKind`. -/
def AiKind.serialize : AiKind → SerdeValue
  | .Wait => .vstr "Wait"
  | .Utility => .vstr "Utility"

/-- Derived `Deserialize` for `AiKind`. -/
def AiKind.deserialize : SerdeValue → Option AiKind
  | .vstr s =>
    if s = "Wait" then some .Wait
    else if s = "Utility" then some .Utility
    else none
  | _ => none

/-- Derived `Serialize` for `ProviderKind` (externally tagged newtype
variants). -/
def ProviderKind.serialize : ProviderKind → SerdeValue
  | .Interactive kind => .variant "Interactive" kind.serialize
  | .Ai kind => .variant "Ai" kind.serialize
  | .Custom id => .variant "Custom" (.vnat id)

/-- Derived `Deserialize` for `ProviderKind`. -/
def ProviderKind.deserialize : SerdeValue → Option ProviderKind
  | .variant tag payload =>
    if tag = "Interactive" then (InteractiveKind.deserialize payload).map .Interactive
    else if tag = "Ai" then (AiKind.deserialize payload).map .Ai
    else if tag = "Custom" then
      match payload with
      | .vnat id => some (.Custom id)
      | _ => none
    else none
  | _ => none

/-! ## Entities and actions (game_core, as used by the Bevy frontend) -/

/-- `EntityId` from game_core. The concrete representation is an opaque
identifier; the constant `PLAYER` is its distinguished player id (its numeric
value is irrelevant to every claim below). -/
structure EntityId where
  id : Nat
deriving DecidableEq, Repr

/-- `EntityId::PLAYER`. -/
def EntityId.PLAYER : EntityId := ⟨0⟩

/-- `CardinalDirection` from game_core, as used by
`get_movement_direction`. -/
inductive CardinalDirection
  | North
  | South
  | East
  | West
  | NorthWest
  | NorthEast
  | SouthWest
  | SouthEast
deriving DecidableEq, Repr

/-- `ActionKind` variants used by the Bevy input system. -/
inductive ActionKind
  | Move
  | Wait
deriving DecidableEq, Repr

/-- `ActionInput` variants used by the Bevy input system. -/
inductive ActionInput
  | NoInput
  | Direction (dir : CardinalDirection)
deriving DecidableEq, Repr

/-- `CharacterAction`: actor plus action-kind-specific input. -/
structure CharacterAction where
  actor : EntityId
  kind : ActionKind
  input : ActionInput
deriving DecidableEq, Repr

/-- `CharacterAction::new`. -/
def CharacterAction.new (actor : EntityId) (kind : ActionKind) (input : ActionInput) :
    CharacterAction :=
  ⟨actor, kind, input⟩

/-- `Action` from game_core: the canonical decision payload (the variant used
throughout the Bevy frontend is `Action::Character`). -/
inductive Action
  | Character (action : CharacterAction)
deriving DecidableEq, Repr

/-- `Action::actor()`. -/
def Action.actor : Action → EntityId
  | .Character a => a.actor

/-! ## Runtime error type (runtime crate)

Modelled from the spec: the runtime crate is not among the provided sources;
the spec's error taxonomy names the actor-mismatch error (`ActorMismatch`,
surfaced by the code as `RuntimeError::InvalidEntityId`) and the closed-channel
error (`ProviderChannelClosed`, surfaced as
`RuntimeError::ActionProviderChannelClosed`). Only the variants the Bevy
provider produces are embedded. -/
inductive RuntimeError
  | InvalidEntityId (id : EntityId)
  | ActionProviderChannelClosed
deriving DecidableEq, Repr

/-! ## BevyActionProvider (client/frontend/bevy/src/provider.rs)

`provide_action` locks its single-consumer receiver and performs one `recv()`.
The receiver's outcome is embedded as an `Option Action`: `some a` when the
channel delivers action `a`, `none` when the sender side is dropped and the
channel is empty (Rust's `recv() == None`). -/

/-- `BevyActionProvider::provide_action`, as a function of the entity argument
and the outcome of the single `rx.recv().await` it performs. -/
def BevyActionProvider.provide_action (entity : EntityId) (recv : Option Action) :
    Except RuntimeError Action :=
  match recv with
  | some action =>
    if action.actor ≠ entity then
      .error (.InvalidEntityId action.actor)
    else
      .ok action
  | none => .error .ActionProviderChannelClosed

/-! ## Bounded action channel (tokio `mpsc::channel(capacity)`)

The queue from the Bevy input system into `BevyActionProvider` is a bounded
tokio mpsc channel of capacity `config.channels.action_buffer`. `try_send` is
non-blocking: it enqueues when there is room and the receiver is alive, and
otherwise returns an error leaving the queue untouched. -/

/-- The sender-visible state of the bounded mpsc action channel. -/
structure ActionChannel where
  capacity : Nat
  queue : List Action
  closed : Bool
deriving DecidableEq, Repr

/-- tokio `Sender::try_send`: returns the new channel state and `true` on
success; on a full or closed channel it returns the unchanged state and
`false` (the error case the input system logs). -/
def ActionChannel.try_send (c : ActionChannel) (a : Action) : ActionChannel × Bool :=
  if c.closed then (c, false)
  else if c.queue.length < c.capacity then ({ c with queue := c.queue ++ [a] }, true)
  else (c, false)

/-! ## View model (client_frontend_core, as read by the Bevy systems)

Modelled from the spec: the `client_frontend_core` crate is not among the
provided sources; only the fields the Bevy frontend reads are embedded
(`view_model.turn.current_actor` in the input system, `turn.clock` at
startup). -/

/-- Turn information carried by the view model. -/
structure TurnInfo where
  current_actor : EntityId
  clock : Nat
deriving DecidableEq, Repr

/-- The frontend view model (`GameViewModel` resource wraps one of these). -/
structure ViewModel where
  turn : TurnInfo
deriving DecidableEq, Repr

/-! ## Keyboard input system (client/frontend/bevy/src/input.rs) -/

/-- The `just_pressed` state of every key `handle_keyboard_input` and
`get_movement_direction` consult. -/
structure KeyState where
  arrow_up : Bool
  arrow_down : Bool
  arrow_right : Bool
  arrow_left : Bool
  key_w : Bool
  key_k : Bool
  key_s : Bool
  key_j : Bool
  key_d : Bool
  key_l : Bool
  key_a : Bool
  key_h : Bool
  numpad7 : Bool
  numpad9 : Bool
  numpad1 : Bool
  numpad3 : Bool
  key_y : Bool
  key_u : Bool
  key_b : Bool
  key_n : Bool
  space : Bool
  period : Bool
deriving DecidableEq, Repr

/-- `get_movement_direction`: the if-chain over arrows, WASD/hjkl, numpad
diagonals and YUBN diagonals, in source order. -/
def get_movement_direction (keys : KeyState) : Option CardinalDirection :=
  if keys.arrow_up then some .North
  else if keys.arrow_down then some .South
  else if keys.arrow_right then some .East
  else if keys.arrow_left then some .West
  else if keys.key_w || keys.key_k then some .North
  else if keys.key_s || keys.key_j then some .South
  else if keys.key_d || keys.key_l then some .East
  else if keys.key_a || keys.key_h then some .West
  else if keys.numpad7 then some .NorthWest
  else if keys.numpad9 then some .NorthEast
  else if keys.numpad1 then some .SouthWest
  else if keys.numpad3 then some .SouthEast
  else if keys.key_y then some .NorthWest
  else if keys.key_u then some .NorthEast
  else if keys.key_b then some .SouthWest
  else if keys.key_n then some .SouthEast
  else none

/-- `handle_keyboard_input`: returns the action channel after the system ran
(`none` exactly when the `ActionSender` resource is absent) together with the
list of actions submitted via `try_send`, in submission order. A failed
`try_send` is logged and the action dropped; the system continues either
way. -/
def handle_keyboard_input (keys : KeyState) (action_sender : Option ActionChannel)
    (view_model : Option ViewModel) : Option ActionChannel × List Action :=
  match action_sender with
  | none => (none, [])
  | some ch =>
    match view_model with
    | none => (some ch, [])
    | some vm =>
      if vm.turn.current_actor ≠ EntityId.PLAYER then (some ch, [])
      else
        let step1 :=
          match get_movement_direction keys with
          | some dir =>
            let action := Action.Character
              (CharacterAction.new EntityId.PLAYER .Move (.Direction dir))
            ((ch.try_send action).1, [action])
          | none => (ch, [])
        if keys.space || keys.period then
          let action := Action.Character
            (CharacterAction.new EntityId.PLAYER .Wait .NoInput)
          (some (step1.1.try_send action).1, step1.2 ++ [action])
        else
          (some step1.1, step1.2)

/-! ## Event bus topics and events (runtime crate, as consumed in events.rs)

Modelled from the spec: the runtime crate's event definitions are not among
the provided sources; the variants and fields are those consumed by
`poll_runtime_events`/`log_event` and named by the spec's data model (`Topic`,
`Event`, `GameStateEvent`), with the `Proof`/`ActionRef` payloads opaque. -/

/-- `Topic`: partitions of the event bus. -/
inductive Topic
  | GameState
  | ProofTopic
  | ActionRef
deriving DecidableEq, Repr

/-- Combat summary read by `log_event`. -/
structure ActionSummary where
  total_damage : Nat
deriving DecidableEq, Repr

/-- Result of an executed action, as read by `log_event`. -/
structure ActionResult where
  summary : ActionSummary
deriving DecidableEq, Repr

/-- `GameStateEvent` variants consumed by the Bevy frontend. -/
inductive GameStateEvent
  | ActionExecuted (action : Action) (action_result : ActionResult)
  | ActionFailed (action : Action) (error : String)
  | StateRestored (from_nonce : Nat) (to_nonce : Nat)
deriving DecidableEq, Repr

/-- `Event`: tagged union keyed by topic; proof artifacts and action
references are opaque to the frontend. -/
inductive Event
  | GameState (e : GameStateEvent)
  | ProofArtifact (p : Nat)
  | ActionRefEvent (r : Nat)
deriving DecidableEq, Repr

/-! ## Event polling (client/frontend/bevy/src/events.rs) -/

/-- Outcome of one `broadcast::Receiver::try_recv` call
(`Ok`/`Empty`/`Lagged(n)`/`Closed`). -/
inductive TryRecvResult
  | ok (e : Event)
  | empty
  | lagged (n : Nat)
  | closed
deriving DecidableEq, Repr

/-- Observable operations the GameState-topic polling loop can perform. The
vocabulary includes `query_state_refetch` — the full-snapshot re-fetch the
spec's reader contract requires on lag — so that its presence or absence in
the loop's behaviour is expressible. -/
inductive PollOp
  | apply_event (e : Event)
  | log_warning_lagged (n : Nat)
  | log_error_closed
  | query_state_refetch
deriving DecidableEq, Repr

/-- The GameState-topic loop of `poll_runtime_events`, as a function of the
sequence of `try_recv` outcomes the receiver yields this frame: each `Ok`
event updates the view model (and message log) and marks it dirty
(`apply_event`); `Empty` breaks silently; `Lagged(n)` logs a warning and
breaks; `Closed` logs an error and breaks. -/
def poll_game_state_events : List TryRecvResult → List PollOp
  | [] => []
  | .ok e :: rest => .apply_event e :: poll_game_state_events rest
  | .empty :: _ => []
  | .lagged n :: _ => [.log_warning_lagged n]
  | .closed :: _ => [.log_error_closed]

/-! ## Frontend startup sequence (client/frontend/bevy/src/app.rs) -/

/-- The `ProviderKind` the Bevy frontend registers and binds
(`bevy_kind` in `BevyFrontend::run`). -/
def bevy_kind : ProviderKind := .Interactive .BevyInput

/-- The runtime-handle operations `BevyFrontend::run` performs, in order. -/
inductive RunOp
  | register_provider (kind : ProviderKind)
  | bind_entity_provider (entity : EntityId) (kind : ProviderKind)
  | subscribe_multiple (topics : List Topic)
  | query_state
  | run_app
deriving DecidableEq, Repr

/-- `BevyFrontend::run` as a trace of runtime-handle operations, parameterised
by whether each fallible call (`register_provider?`, `bind_entity_provider?`,
`query_state().await?`) succeeds; each `?` on failure aborts `run` with the
error, returning the trace so far and `false`. -/
def BevyFrontend.run (register_ok bind_ok query_ok : Bool) : List RunOp × Bool :=
  let t := [RunOp.register_provider bevy_kind]
  if !register_ok then (t, false)
  else
    let t := t ++ [RunOp.bind_entity_provider EntityId.PLAYER bevy_kind]
    if !bind_ok then (t, false)
    else
      let t := t ++ [RunOp.subscribe_multiple [Topic.GameState, Topic.ProofTopic],
        RunOp.query_state]
      if !query_ok then (t, false)
      else (t ++ [RunOp.run_app], true)

/-! ## AI providers (runtime crate)

Modelled from the spec: the AI provider implementations live in the runtime
crate, which is not among the provided sources. Per the spec, `Ai(Wait)`
produces the no-op wait action and `Ai(Utility)` generates all candidate
actions, scores them with a pluggable pure utility function of state, and
selects the highest-scoring candidate; both are pure functions of
`(state, entity)` with no clock, I/O, or randomness outside the state. -/

/-- Canonical game state, as the spec describes it for replay: all inputs an
AI provider may consult, including the randomness seed carried in state. -/
structure GameState where
  turn : TurnInfo
  seed : Nat
deriving DecidableEq, Repr

/-- Modelled from the spec: the no-op "wait" action for an entity. -/
def wait_action (entity : EntityId) : Action :=
  .Character (CharacterAction.new entity .Wait .NoInput)

/-- Modelled from the spec: select the highest-scoring candidate; the earliest
candidate wins ties (a deterministic tie-break). -/
def select_best (score : Action → Nat) : List Action → Option Action
  | [] => none
  | a :: rest =>
    match select_best score rest with
    | none => some a
    | some b => if score b > score a then some b else some a

/-- Modelled from the spec: the decision function of the AI providers.
`score` is the pluggable pure utility scoring function of state and
`candidates` the pure candidate generator; `Wait` ignores both. A `Utility`
provider with no candidates falls back to waiting. -/
def ai_provide_action (score : GameState → Action → Nat)
    (candidates : GameState → EntityId → List Action)
    (kind : AiKind) (entity : EntityId) (state : GameState) : Action :=
  match kind with
  | .Wait => wait_action entity
  | .Utility =>
    (select_best (score state) (candidates state entity)).getD (wait_action entity)

/-! ## Theorems -/

/-- C5: the category predicates on `ProviderKind` classify exactly by
top-level variant — `is_interactive`/`is_ai`/`is_custom` hold precisely on
`Interactive _`/`Ai _`/`Custom _`, and exactly one of the three holds for
every kind. -/
theorem provider_kind_predicates_classify (k : ProviderKind) :
    (k.is_interactive = true ↔ ∃ i, k = .Interactive i) ∧
    (k.is_ai = true ↔ ∃ a, k = .Ai a) ∧
    (k.is_custom = true ↔ ∃ n, k = .Custom n) ∧
    ((k.is_interactive = true ∧ k.is_ai = false ∧ k.is_custom = false) ∨
      (k.is_interactive = false ∧ k.is_ai = true ∧ k.is_custom = false) ∨
      (k.is_interactive = false ∧ k.is_ai = false ∧ k.is_custom = true)) := by
  cases k <;>
    simp [ProviderKind.is_interactive, ProviderKind.is_ai, ProviderKind.is_custom]

/-- C8: serializing any `ProviderKind` (including nested `InteractiveKind`,
`AiKind` and `Custom` payloads) and deserializing the result yields the
original value: the serde round-trip is the identity on `ProviderKind`. -/
theorem provider_kind_roundtrip (k : ProviderKind) :
    ProviderKind.deserialize (ProviderKind.serialize k) = some k := by
  cases k with
  | Interactive i => cases i <;> rfl
  | Ai a => cases a <;> rfl
  | Custom n => rfl

/-- C1: `BevyActionProvider::provide_action` enforces the actor check —
it returns `Ok a` exactly when the channel delivered `a` and `a.actor`
equals the requested entity, and a delivered action with a different actor
is rejected with the actor-mismatch error (`InvalidEntityId`, the spec's
`ActorMismatch`), never returned as `Ok`. -/
theorem provide_action_actor_guard (entity : EntityId) (recv : Option Action) :
    (∀ a, BevyActionProvider.provide_action entity recv = .ok a ↔
      recv = some a ∧ a.actor = entity) ∧
    (∀ a, recv = some a → a.actor ≠ entity →
      BevyActionProvider.provide_action entity recv =
        .error (.InvalidEntityId a.actor)) := by
  constructor
  · intro a
    cases recv with
    | none => simp [BevyActionProvider.provide_action]
    | some b =>
      by_cases h : b.actor = entity <;>
        simp [BevyActionProvider.provide_action, h] <;> rintro rfl <;> exact h
  · intro a hr hne
    subst hr
    simp [BevyActionProvider.provide_action, hne]

/-- C1 witness: a concrete crafted action whose actor differs from the
requested entity is rejected with the actor-mismatch error and is not `Ok`. -/
theorem provide_action_actor_guard_witness :
    BevyActionProvider.provide_action ⟨1⟩
        (some (.Character (CharacterAction.new ⟨2⟩ .Wait .NoInput))) =
      .error (.InvalidEntityId ⟨2⟩) :=
  (provide_action_actor_guard ⟨1⟩
      (some (.Character (CharacterAction.new ⟨2⟩ .Wait .NoInput)))).2
    (.Character (CharacterAction.new ⟨2⟩ .Wait .NoInput)) rfl (by decide)

/-- C3: `provide_action` resolves with `ActionProviderChannelClosed` exactly
when the channel's `recv()` yields `None` (sender dropped), and every other
error it can return is the actor-mismatch rejection. -/
theorem provide_action_channel_closed (entity : EntityId) (recv : Option Action) :
    (BevyActionProvider.provide_action entity recv =
        .error .ActionProviderChannelClosed ↔ recv = none) ∧
    (∀ e, BevyActionProvider.provide_action entity recv = .error e →
      e = .ActionProviderChannelClosed ∨
        ∃ a, recv = some a ∧ a.actor ≠ entity ∧ e = .InvalidEntityId a.actor) := by
  cases recv with
  | none => simp [BevyActionProvider.provide_action]
  | some b =>
    by_cases h : b.actor = entity
    · simp [BevyActionProvider.provide_action, h]
    · simp [BevyActionProvider.provide_action, h]

/-- C3 witness: on a concrete closed channel (recv = `None`) the provider
returns the closed-channel error rather than hanging. -/
theorem provide_action_channel_closed_witness :
    BevyActionProvider.provide_action ⟨1⟩ none =
      .error .ActionProviderChannelClosed :=
  (provide_action_channel_closed ⟨1⟩ none).1.mpr rfl

/-- C6: in `BevyFrontend::run`, the registration of the Bevy interactive
provider kind is the first runtime-handle operation, the bind of the player
to that same kind is attempted exactly when registration succeeded (a
registration error aborts `run`), so the bind is never attempted while no
callable is registered for the kind. -/
theorem bevy_run_register_precedes_bind :
    ∀ register_ok bind_ok query_ok : Bool,
      ((BevyFrontend.run register_ok bind_ok query_ok).1.head? =
        some (.register_provider bevy_kind)) ∧
      ((RunOp.bind_entity_provider EntityId.PLAYER bevy_kind ∈
          (BevyFrontend.run register_ok bind_ok query_ok).1) ↔ register_ok = true) ∧
      (register_ok = false →
        (BevyFrontend.run register_ok bind_ok query_ok).2 = false) := by
  decide

/-- C2: AI providers are deterministic pure functions of state — for any
pure scoring function and candidate generator, invoking the decision function
of either AI kind twice with identical state yields identical actions. -/
theorem ai_provider_deterministic (score : GameState → Action → Nat)
    (candidates : GameState → EntityId → List Action) (kind : AiKind)
    (entity : EntityId) (s1 s2 : GameState) (h : s1 = s2) :
    ai_provide_action score candidates kind entity s1 =
      ai_provide_action score candidates kind entity s2 := by
  subst h
  rfl

/-- C2 witness: the determinism theorem applied at a concrete scoring
function, candidate generator, kind, entity and state. -/
theorem ai_provider_deterministic_witness :
    ai_provide_action (fun _ _ => 0) (fun _ e => [wait_action e]) AiKind.Utility
        EntityId.PLAYER ⟨⟨EntityId.PLAYER, 0⟩, 7⟩ =
      ai_provide_action (fun _ _ => 0) (fun _ e => [wait_action e]) AiKind.Utility
        EntityId.PLAYER ⟨⟨EntityId.PLAYER, 0⟩, 7⟩ :=
  ai_provider_deterministic (fun _ _ => 0) (fun _ e => [wait_action e]) AiKind.Utility
    EntityId.PLAYER ⟨⟨EntityId.PLAYER, 0⟩, 7⟩ ⟨⟨EntityId.PLAYER, 0⟩, 7⟩ rfl

/-- C4: on a `Lagged(n)` read, the GameState-topic polling loop only logs a
warning and breaks — it performs no full-snapshot re-fetch (`query_state`),
on that input or on any other sequence of `try_recv` outcomes. -/
theorem poll_lagged_logs_only :
    poll_game_state_events [TryRecvResult.lagged 5] = [PollOp.log_warning_lagged 5] ∧
    PollOp.query_state_refetch ∉ poll_game_state_events [TryRecvResult.lagged 5] ∧
    ∀ inbox : List TryRecvResult,
      PollOp.query_state_refetch ∉ poll_game_state_events inbox := by
  refine ⟨rfl, by decide, ?_⟩
  intro inbox
  induction inbox with
  | nil => simp [poll_game_state_events]
  | cons head rest ih =>
    cases head with
    | ok e => simpa [poll_game_state_events] using ih
    | empty => simp [poll_game_state_events]
    | lagged n => simp [poll_game_state_events]
    | closed => simp [poll_game_state_events]

/-- C7: the keyboard input system never blocks on queue capacity — on a full
action queue `try_send` rejects the new action leaving the queue untouched,
`handle_keyboard_input` leaves the channel unchanged, and the set of actions
the system submits is independent of the channel's state (the producer
proceeds identically instead of waiting for room). -/
theorem keyboard_input_non_blocking (keys : KeyState) (ch : ActionChannel)
    (vm : ViewModel) (hfull : ch.capacity ≤ ch.queue.length) :
    (∀ a, ch.try_send a = (ch, false)) ∧
    (handle_keyboard_input keys (some ch) (some vm)).1 = some ch ∧
    (∀ ch2 : ActionChannel,
      (handle_keyboard_input keys (some ch) (some vm)).2 =
        (handle_keyboard_input keys (some ch2) (some vm)).2) := by
  have hnl : ¬ ch.queue.length < ch.capacity := not_lt.mpr hfull
  have hsend : ∀ a, ch.try_send a = (ch, false) := by
    intro a
    simp [ActionChannel.try_send, hnl]
  refine ⟨hsend, ?_, ?_⟩
  · by_cases hvm : vm.turn.current_actor = EntityId.PLAYER
    · cases hdir : get_movement_direction keys <;>
        by_cases hsp : (keys.space || keys.period) = true <;>
          simp [handle_keyboard_input, hvm, hdir, hsp, hsend]
    · simp [handle_keyboard_input, hvm]
  · intro ch2
    by_cases hvm : vm.turn.current_actor = EntityId.PLAYER
    · cases hdir : get_movement_direction keys <;>
        by_cases hsp : (keys.space || keys.period) = true <;>
          simp [handle_keyboard_input, hvm, hdir, hsp]
    · simp [handle_keyboard_input, hvm]

/-- C7 witness: with a concrete full (zero-capacity) channel, a movement key
and the wait key pressed, the system leaves the channel unchanged. -/
theorem keyboard_input_non_blocking_witness :
    (handle_keyboard_input
        ⟨true, false, false, false, false, false, false, false, false, false, false,
          false, false, false, false, false, false, false, false, false, true, false⟩
        (some ⟨0, [], false⟩) (some ⟨⟨EntityId.PLAYER, 0⟩⟩)).1 =
      some ⟨0, [], false⟩ :=
  (keyboard_input_non_blocking
      ⟨true, false, false, false, false, false, false, false, false, false, false,
        false, false, false, false, false, false, false, false, false, true, false⟩
      ⟨0, [], false⟩ ⟨⟨EntityId.PLAYER, 0⟩⟩ (by decide)).2.1

/-- C9: every action the keyboard input system submits to the action channel
has actor `EntityId::PLAYER`, and the system submits nothing at all unless
the view model is present with current turn actor `PLAYER` (and the sender
resource is present). -/
theorem keyboard_input_actor_invariant (keys : KeyState)
    (action_sender : Option ActionChannel) (view_model : Option ViewModel) :
    (∀ a ∈ (handle_keyboard_input keys action_sender view_model).2,
      a.actor = EntityId.PLAYER) ∧
    (∀ vm, view_model = some vm → vm.turn.current_actor ≠ EntityId.PLAYER →
      (handle_keyboard_input keys action_sender view_model).2 = []) ∧
    (view_model = none → (handle_keyboard_input keys action_sender view_model).2 = []) ∧
    (action_sender = none → (handle_keyboard_input keys action_sender view_model).2 = []) := by
  rcases action_sender with _ | ch
  · simp [handle_keyboard_input]
  rcases view_model with _ | vm
  · simp [handle_keyboard_input]
  by_cases hvm : vm.turn.current_actor = EntityId.PLAYER
  · cases hdir : get_movement_direction keys <;>
      by_cases hsp : (keys.space || keys.period) = true <;>
        simp [handle_keyboard_input, hvm, hdir, hsp, Action.actor, CharacterAction.new]
  · simp [handle_keyboard_input, hvm]

/-- C9 witness: with a concrete view model whose current actor is not the
player, the input system submits no action even with keys pressed. -/
theorem keyboard_input_actor_invariant_witness :
    (handle_keyboard_input
        ⟨true, true, true, true, true, true, true, true, true, true, true,
          true, true, true, true, true, true, true, true, true, true, true⟩
        (some ⟨4, [], false⟩) (some ⟨⟨⟨5⟩, 0⟩⟩)).2 = [] :=
  (keyboard_input_actor_invariant
      ⟨true, true, true, true, true, true, true, true, true, true, true,
        true, true, true, true, true, true, true, true, true, true, true⟩
      (some ⟨4, [], false⟩) (some ⟨⟨⟨5⟩, 0⟩⟩)).2.1 ⟨⟨⟨5⟩, 0⟩⟩ rfl (by decide)

/-! ### Display injectivity: helper lemmas -/

/-- `digitChar` is injective on decimal digits. -/
theorem digitChar_inj_lt : ∀ d1 < 10, ∀ d2 < 10, digitChar d1 = digitChar d2 → d1 = d2 := by
  decide

/-- Mapping `digitChar` over lists of decimal digits is injective. -/
theorem map_digitChar_inj : ∀ l1 l2 : List Nat, (∀ d ∈ l1, d < 10) → (∀ d ∈ l2, d < 10) →
    l1.map digitChar = l2.map digitChar → l1 = l2 := by
  intro l1
  induction l1 with
  | nil =>
    intro l2 _ _ h
    cases l2 <;> simp_all
  | cons a t ih =>
    intro l2 h1 h2 h
    cases l2 with
    | nil => simp_all
    | cons b t2 =>
      simp only [List.map_cons, List.cons.injEq] at h
      have hab : a = b :=
        digitChar_inj_lt a (h1 a (by simp)) b (h2 b (by simp)) h.1
      have htt : t = t2 :=
        ih t2 (fun d hd => h1 d (by simp [hd])) (fun d hd => h2 d (by simp [hd])) h.2
      rw [hab, htt]

/-- Only `0` renders as the decimal string `"0"`. -/
theorem natDecimal_eq_zero_str (n : Nat) (h : natDecimal n = "0") : n = 0 := by
  by_cases hn : n = 0
  · exact hn
  · exfalso
    rw [natDecimal, if_neg hn] at h
    have hdata : ((Nat.digits 10 n).map digitChar).reverse = ['0'] := by
      have := congrArg String.data h
      simpa using this
    have hmap : (Nat.digits 10 n).map digitChar = ['0'] := by
      have := congrArg List.reverse hdata
      simpa using this
    rcases hdig : Nat.digits 10 n with _ | ⟨d, rest⟩
    · rw [hdig] at hmap
      simp at hmap
    · rw [hdig] at hmap
      simp only [List.map_cons, List.cons.injEq, List.map_eq_nil_iff] at hmap
      have hd10 : d < 10 :=
        Nat.digits_lt_base (by norm_num) (by rw [hdig]; exact List.mem_cons_self d rest)
      have hd0 : d = 0 :=
        digitChar_inj_lt d hd10 0 (by norm_num) (by simpa [digitChar] using hmap.1)
      have h1 := Nat.ofDigits_digits 10 n
      rw [hdig, hd0, hmap.2] at h1
      simp [Nat.ofDigits] at h1
      exact hn h1.symm

/-- Decimal rendering is injective. -/
theorem natDecimal_inj (m n : Nat) (h : natDecimal m = natDecimal n) : m = n := by
  by_cases hm : m = 0
  · subst hm
    exact (natDecimal_eq_zero_str n (by simpa [natDecimal] using h.symm)).symm
  · by_cases hn : n = 0
    · subst hn
      exact absurd (natDecimal_eq_zero_str m (by simpa [natDecimal] using h)) hm
    · rw [natDecimal, if_neg hm, natDecimal, if_neg hn] at h
      have hl : ((Nat.digits 10 m).map digitChar).reverse =
          ((Nat.digits 10 n).map digitChar).reverse := by
        injection h
      have hmap := List.reverse_injective hl
      have hdig := map_digitChar_inj _ _
        (fun d hd => Nat.digits_lt_base (by norm_num) hd)
        (fun d hd => Nat.digits_lt_base (by norm_num) hd) hmap
      have h1 := Nat.ofDigits_digits 10 m
      have h2 := Nat.ofDigits_digits 10 n
      rw [hdig] at h1
      exact h1.symm.trans h2

/-- The rendered form of an interactive kind starts with `'i'`. -/
theorem interactive_display_head (i : InteractiveKind) :
    (ProviderKind.display (.Interactive i)).data.head? = some 'i' := by
  cases i <;> rfl

/-- The rendered form of an AI kind starts with `'a'`. -/
theorem ai_display_head (a : AiKind) :
    (ProviderKind.display (.Ai a)).data.head? = some 'a' := by
  cases a <;> rfl

/-- The rendered form of a custom kind starts with `'c'`. -/
theorem custom_display_head (n : Nat) :
    (ProviderKind.display (.Custom n)).data.head? = some 'c' := by
  show ("custom/" ++ natDecimal n).data.head? = some 'c'
  rw [String.data_append]
  rfl

/-- C10: the `Display` formatting of `ProviderKind` is injective — equal
rendered strings imply equal kinds, across all variants and all distinct
`Custom` discriminants. -/
theorem provider_kind_display_injective (k1 k2 : ProviderKind)
    (h : k1.display = k2.display) : k1 = k2 := by
  cases k1 with
  | Interactive i1 =>
    cases k2 with
    | Interactive i2 =>
      cases i1 <;> cases i2 <;> first | rfl | exact absurd h (by decide)
    | Ai a2 =>
      exfalso
      have hh := congrArg (fun s => s.data.head?) h
      simp only [interactive_display_head, ai_display_head] at hh
      exact absurd hh (by decide)
    | Custom n2 =>
      exfalso
      have hh := congrArg (fun s => s.data.head?) h
      simp only [interactive_display_head, custom_display_head] at hh
      exact absurd hh (by decide)
  | Ai a1 =>
    cases k2 with
    | Interactive i2 =>
      exfalso
      have hh := congrArg (fun s => s.data.head?) h
      simp only [interactive_display_head, ai_display_head] at hh
      exact absurd hh (by decide)
    | Ai a2 =>
      cases a1 <;> cases a2 <;> first | rfl | exact absurd h (by decide)
    | Custom n2 =>
      exfalso
      have hh := congrArg (fun s => s.data.head?) h
      simp only [ai_display_head, custom_display_head] at hh
      exact absurd hh (by decide)
  | Custom n1 =>
    cases k2 with
    | Interactive i2 =>
      exfalso
      have hh := congrArg (fun s => s.data.head?) h
      simp only [interactive_display_head, custom_display_head] at hh
      exact absurd hh (by decide)
    | Ai a2 =>
      exfalso
      have hh := congrArg (fun s => s.data.head?) h
      simp only [ai_display_head, custom_display_head] at hh
      exact absurd hh (by decide)
    | Custom n2 =>
      simp only [ProviderKind.display] at h
      have hdata := congrArg String.data h
      rw [String.data_append, String.data_append] at hdata
      have hnd : (natDecimal n1).data = (natDecimal n2).data :=
        List.append_cancel_left hdata
      rw [natDecimal_inj n1 n2 (String.ext hnd)]

/-- C10 witness: the injectivity theorem applied at concrete equal
renderings. -/
theorem provider_kind_display_injective_witness :
    ProviderKind.Custom 7 = ProviderKind.Custom 7 :=
  provider_kind_display_injective (.Custom 7) (.Custom 7) rfl

end Dungeon
